import Mathlib

/-!
Verification of the ResKiosk ESP32 firmware sketch
(`src/ESP32_Config/src/main.cpp`), a LoRa two-way messaging bridge.

The firmware is a single-threaded Arduino sketch: `setup()` runs once,
then `loop()` repeats forever.  We give it a shallow embedding as an
effect-trace semantics: every observable library call (serial prints,
LoRa packet transmission, buzzer pin writes, delays, peripheral
initialisation) becomes a constructor of `Effect`, and each piece of the
sketch becomes a Lean function returning the list of effects it performs.
Environment inputs (pending serial lines, pending LoRa packets) are
passed in explicitly, one record per loop iteration.
-/

namespace ResKiosk

/-- `#define LORA_SS 5` -/
def LORA_SS : Nat := 5

/-- `#define LORA_RST 14` -/
def LORA_RST : Nat := 14

/-- `#define LORA_DIO0 2` -/
def LORA_DIO0 : Nat := 2

/-- `#define BUZZER_PIN 25` -/
def BUZZER_PIN : Nat := 25

/-- `#define LORA_FREQUENCY 433E6` (433e6 is an exactly representable
integer value, so we model the frequency as a natural number). -/
def LORA_FREQUENCY : Nat := 433000000

/-- `#define SERIAL_BAUD 115200` -/
def SERIAL_BAUD : Nat := 115200

/-- `#define BT_DEVICE_NAME "Sting_Node_2"` -/
def BT_DEVICE_NAME : String := "Sting_Node_2"

/-- C `isspace` in the default locale, as used by Arduino
`String::trim()`: space, `\t`, `\n`, vertical tab (11), form feed (12),
`\r`. -/
def isSpaceChar (c : Char) : Bool :=
  c = ' ' || c = '\t' || c = '\n' || c = Char.ofNat 11 || c = Char.ofNat 12 || c = '\r'

/-- Arduino `String::trim()` on the character list: drop leading and
trailing `isspace` characters. -/
def trimChars (l : List Char) : List Char :=
  ((l.dropWhile isSpaceChar).reverse.dropWhile isSpaceChar).reverse

/-- Arduino `String::trim()` lifted to `String`. -/
def trim (s : String) : String := String.mk (trimChars s.data)

/-- One observable action of the sketch.  Each constructor corresponds to
one library call in `main.cpp`. -/
inductive Effect where
  | serialBegin (baud : Nat)
  | btBegin (name : String)
  | pinModeOut (pin : Nat)
  | digitalWrite (pin : Nat) (high : Bool)
  | delayMs (ms : Nat)
  | serialPrintln (msg : String)
  | btPrintln (msg : String)
  | loraSetPins (ss rst dio0 : Nat)
  | loraBegin (freq : Nat)
  | loraSend (payload : String)
  deriving DecidableEq, Repr

/-- `printToAll`: `Serial.println(message); SerialBT.println(message);` -/
def printToAll (message : String) : List Effect :=
  [Effect.serialPrintln message, Effect.btPrintln message]

/-- `sendLoRaMessage`: print the tagged echo to both channels, then
transmit the message as one LoRa packet
(`beginPacket`/`print`/`endPacket` collapse to one `loraSend`). -/
def sendLoRaMessage (message : String) (sourceTag : String) : List Effect :=
  printToAll ("[TX " ++ sourceTag ++ "] " ++ message) ++ [Effect.loraSend message]

/-- The body of `buzzerBeep`'s `for` loop, indexed by the number of
remaining iterations (`n` iterations remain after the current one, so
`i < count - 1` holds exactly when `0 < n`). -/
def buzzerBeepGo (duration : Nat) : Nat → List Effect
  | 0 => []
  | Nat.succ n =>
      [Effect.digitalWrite BUZZER_PIN true, Effect.delayMs duration,
       Effect.digitalWrite BUZZER_PIN false] ++
      (if 0 < n then [Effect.delayMs duration] else []) ++
      buzzerBeepGo duration n

/-- `buzzerBeep(int duration, int count)`: the `for (int i = 0; i < count; i++)`
loop runs `count.toNat` times (zero times for a nonpositive `int`). -/
def buzzerBeep (duration : Nat) (count : Int) : List Effect :=
  buzzerBeepGo duration count.toNat

/-- `setup()`.  The parameter `loraInitOk` is the boolean result of
`LoRa.begin(LORA_FREQUENCY)`.  On failure the error line is printed and
the function's effect list ends (the infinite `while (1) delay(1000);`
idle loop is modelled in `run` below). -/
def setupEffects (loraInitOk : Bool) : List Effect :=
  [Effect.serialBegin SERIAL_BAUD, Effect.btBegin BT_DEVICE_NAME,
   Effect.pinModeOut BUZZER_PIN, Effect.digitalWrite BUZZER_PIN false] ++
  printToAll "LoRa Two-Way Chat" ++
  printToAll "Initializing..." ++
  printToAll ("Bluetooth device name: " ++ BT_DEVICE_NAME) ++
  [Effect.loraSetPins LORA_SS LORA_RST LORA_DIO0, Effect.loraBegin LORA_FREQUENCY] ++
  if loraInitOk then
    printToAll "LoRa initialized successfully!" ++
    printToAll "Ready to send and receive messages." ++
    printToAll "Input channels: USB Serial + Bluetooth Serial" ++
    printToAll "-----------------------------------" ++
    buzzerBeep 100 1
  else
    printToAll "ERROR: LoRa init failed!"

/-- The environment of one `loop()` iteration: the line pending on USB
serial (`Serial.available()` / `readStringUntil('\n')`, terminator
stripped), the line pending on Bluetooth serial, and the payload of the
LoRa packet reported by `parsePacket` (drained byte by byte). -/
structure LoopInput where
  usb : Option String
  bt : Option String
  lora : Option String
  deriving DecidableEq, Repr

/-- The shared body of the two serial branches of `loop()`:
`message.trim(); if (message.length() > 0) sendLoRaMessage(message, tag);` -/
def handleSerialLine (raw : String) (tag : String) : List Effect :=
  let message := trim raw
  if 0 < message.length then sendLoRaMessage message tag else []

/-- The LoRa branch of `loop()`: drain the packet into `incoming`, print
`"[RX] " + incoming` to both channels, then `buzzerBeep(100, 2)`. -/
def handleLoRaPacket (incoming : String) : List Effect :=
  printToAll ("[RX] " ++ incoming) ++ buzzerBeep 100 2

/-- `if (Serial.available()) { ... }` -/
def pollUsb : Option String → List Effect
  | none => []
  | some raw => handleSerialLine raw "USB"

/-- `if (SerialBT.available()) { ... }` -/
def pollBt : Option String → List Effect
  | none => []
  | some raw => handleSerialLine raw "BT"

/-- `int packetSize = LoRa.parsePacket(); if (packetSize) { ... }` -/
def pollLoRa : Option String → List Effect
  | none => []
  | some p => handleLoRaPacket p

/-- One iteration of `loop()`: poll USB serial, then Bluetooth serial,
then the LoRa receive buffer, in that order. -/
def loop (inp : LoopInput) : List Effect :=
  pollUsb inp.usb ++ pollBt inp.bt ++ pollLoRa inp.lora

/-- Repeated `loop()` iterations over a finite schedule of inputs. -/
def loopRun (inputs : List LoopInput) : List Effect :=
  (inputs.map loop).flatten

/-- The post-failure idle loop `while (1) { delay(1000); }`: each cycle
of the schedule performs only a one-second delay; pending inputs are
never read. -/
def haltIdle (inputs : List LoopInput) : List Effect :=
  List.replicate inputs.length (Effect.delayMs 1000)

/-- The whole program over a finite schedule: `setup()` once, then
either `loop()` forever or the idle halt loop, depending on whether
`LoRa.begin` succeeded. -/
def run (loraInitOk : Bool) (inputs : List LoopInput) : List Effect :=
  setupEffects loraInitOk ++ (if loraInitOk then loopRun inputs else haltIdle inputs)

/-- Pending-line buffers of the three input sources, for stating how
much of each buffer one iteration consumes. -/
structure Buffers where
  usbLines : List String
  btLines : List String
  loraPackets : List String
  deriving DecidableEq, Repr

/-- USB branch against its buffer: `Serial.available()` is true exactly
when a line is pending, and `readStringUntil('\n')` consumes one line. -/
def stepUsb : List String → List String × List Effect
  | [] => ([], [])
  | raw :: rest => (rest, handleSerialLine raw "USB")

/-- Bluetooth branch against its buffer. -/
def stepBt : List String → List String × List Effect
  | [] => ([], [])
  | raw :: rest => (rest, handleSerialLine raw "BT")

/-- LoRa branch against its buffer: `parsePacket` reports one packet,
whose payload is fully drained. -/
def stepLoRa : List String → List String × List Effect
  | [] => ([], [])
  | p :: rest => (rest, handleLoRaPacket p)

/-- One iteration of `loop()` acting on the pending buffers. -/
def loopStep (b : Buffers) : Buffers × List Effect :=
  let u := stepUsb b.usbLines
  let t := stepBt b.btLines
  let r := stepLoRa b.loraPackets
  (⟨u.1, t.1, r.1⟩, u.2 ++ t.2 ++ r.2)

/-- Number of `Serial.println` effects carrying exactly the line `m`. -/
def countSerialLine (m : String) (l : List Effect) : Nat :=
  l.count (Effect.serialPrintln m)

/-- Number of `SerialBT.println` effects carrying exactly the line `m`. -/
def countBtLine (m : String) (l : List Effect) : Nat :=
  l.count (Effect.btPrintln m)

/-- Number of buzzer pulses: rising edges on the buzzer pin. -/
def countPulses (l : List Effect) : Nat :=
  l.count (Effect.digitalWrite BUZZER_PIN true)

/-- An effect observable from outside: a line printed on either serial
channel, a LoRa transmission, or a buzzer rising edge. -/
def isOutput : Effect → Bool
  | Effect.serialPrintln _ => true
  | Effect.btPrintln _ => true
  | Effect.loraSend _ => true
  | Effect.digitalWrite _ lvl => lvl
  | _ => false

/-- Payloads of the LoRa packets transmitted in a trace, in order. -/
def loraPayloads (l : List Effect) : List String :=
  l.filterMap (fun e => match e with
    | Effect.loraSend p => some p
    | _ => none)

/-- Right-biased choice: the second buzzer level when defined, otherwise
the first. -/
def olast (x y : Option Bool) : Option Bool :=
  match y with
  | some b => some b
  | none => x

/-- The buzzer level written by a single effect, if any. -/
def buzzerWriteOf : Effect → Option Bool
  | Effect.digitalWrite p lvl => if p = BUZZER_PIN then some lvl else none
  | _ => none

/-- The level left on the buzzer pin by the last write in the trace
(`none` when the trace never writes the buzzer pin). -/
def lastBuzzerWrite : List Effect → Option Bool
  | [] => none
  | e :: rest => olast (buzzerWriteOf e) (lastBuzzerWrite rest)

/-- The print effects of a trace, in order. -/
def printsOf (l : List Effect) : List Effect :=
  l.filter (fun e => match e with
    | Effect.serialPrintln _ => true
    | Effect.btPrintln _ => true
    | _ => false)

/-- A print trace in which every line appears as an adjacent pair: once
on USB serial, then identically on Bluetooth serial. -/
inductive Paired : List Effect → Prop
  | nil : Paired []
  | cons (m : String) {rest : List Effect} (h : Paired rest) :
      Paired (Effect.serialPrintln m :: Effect.btPrintln m :: rest)

theorem olast_none_left (y : Option Bool) : olast none y = y := by
  cases y <;> rfl

theorem olast_assoc (x y z : Option Bool) :
    olast (olast x y) z = olast x (olast y z) := by
  cases z <;> cases y <;> rfl

theorem lastBuzzerWrite_append (a b : List Effect) :
    lastBuzzerWrite (a ++ b) = olast (lastBuzzerWrite a) (lastBuzzerWrite b) := by
  induction a with
  | nil => rw [List.nil_append, lastBuzzerWrite, olast_none_left]
  | cons e a ih =>
      rw [List.cons_append, lastBuzzerWrite, ih, lastBuzzerWrite, olast_assoc]

theorem loopRun_append (xs ys : List LoopInput) :
    loopRun (xs ++ ys) = loopRun xs ++ loopRun ys := by
  simp [loopRun]

theorem printsOf_append (a b : List Effect) :
    printsOf (a ++ b) = printsOf a ++ printsOf b := by
  simp [printsOf]

theorem Paired.append {a b : List Effect} (ha : Paired a) (hb : Paired b) :
    Paired (a ++ b) := by
  induction ha with
  | nil => exact hb
  | cons m h ih => exact Paired.cons m ih

theorem paired_printToAll (m : String) : Paired (printsOf (printToAll m)) :=
  Paired.cons m Paired.nil

theorem printsOf_buzzerBeepGo (d : Nat) (n : Nat) :
    printsOf (buzzerBeepGo d n) = [] := by
  induction n with
  | zero => rfl
  | succ n ih =>
      rw [show buzzerBeepGo d (n + 1) =
          ([Effect.digitalWrite BUZZER_PIN true, Effect.delayMs d,
            Effect.digitalWrite BUZZER_PIN false] ++
           (if 0 < n then [Effect.delayMs d] else [])) ++ buzzerBeepGo d n from rfl,
        printsOf_append, printsOf_append, ih]
      by_cases h : 0 < n
      · rw [if_pos h]; rfl
      · rw [if_neg h]; rfl

theorem paired_handleSerialLine (raw tag : String) :
    Paired (printsOf (handleSerialLine raw tag)) := by
  unfold handleSerialLine
  by_cases h : 0 < (trim raw).length
  · rw [if_pos h]
    exact Paired.cons ("[TX " ++ tag ++ "] " ++ trim raw) Paired.nil
  · rw [if_neg h]
    exact Paired.nil

theorem paired_handleLoRaPacket (p : String) :
    Paired (printsOf (handleLoRaPacket p)) := by
  unfold handleLoRaPacket
  rw [printsOf_append]
  refine Paired.append (paired_printToAll _) ?_
  rw [show buzzerBeep 100 2 = buzzerBeepGo 100 2 from rfl, printsOf_buzzerBeepGo]
  exact Paired.nil

theorem paired_loop (inp : LoopInput) : Paired (printsOf (loop inp)) := by
  unfold loop
  rw [printsOf_append, printsOf_append]
  refine Paired.append (Paired.append ?_ ?_) ?_
  · cases h : inp.usb with
    | none => exact Paired.nil
    | some raw => exact paired_handleSerialLine raw "USB"
  · cases h : inp.bt with
    | none => exact Paired.nil
    | some raw => exact paired_handleSerialLine raw "BT"
  · cases h : inp.lora with
    | none => exact Paired.nil
    | some p => exact paired_handleLoRaPacket p

theorem paired_loopRun (inputs : List LoopInput) :
    Paired (printsOf (loopRun inputs)) := by
  induction inputs with
  | nil => exact Paired.nil
  | cons i rest ih =>
      have : loopRun (i :: rest) = loop i ++ loopRun rest := by simp [loopRun]
      rw [this, printsOf_append]
      exact Paired.append (paired_loop i) ih

theorem haltIdle_cons (i : LoopInput) (rest : List LoopInput) :
    haltIdle (i :: rest) = Effect.delayMs 1000 :: haltIdle rest := by
  simp [haltIdle, List.replicate_succ]

theorem printsOf_haltIdle (inputs : List LoopInput) :
    printsOf (haltIdle inputs) = [] := by
  induction inputs with
  | nil => rfl
  | cons i rest ih => rw [haltIdle_cons]; exact ih

theorem paired_setupEffects (ok : Bool) : Paired (printsOf (setupEffects ok)) := by
  cases ok
  · show Paired (printsOf (setupEffects false))
    have h : printsOf (setupEffects false) =
        ["LoRa Two-Way Chat", "Initializing...",
         "Bluetooth device name: Sting_Node_2",
         "ERROR: LoRa init failed!"].flatMap printToAll := by decide
    rw [h]
    exact Paired.cons _ (Paired.cons _ (Paired.cons _ (Paired.cons _ Paired.nil)))
  · show Paired (printsOf (setupEffects true))
    have h : printsOf (setupEffects true) =
        ["LoRa Two-Way Chat", "Initializing...",
         "Bluetooth device name: Sting_Node_2",
         "LoRa initialized successfully!", "Ready to send and receive messages.",
         "Input channels: USB Serial + Bluetooth Serial",
         "-----------------------------------"].flatMap printToAll := by decide
    rw [h]
    exact Paired.cons _ (Paired.cons _ (Paired.cons _ (Paired.cons _
      (Paired.cons _ (Paired.cons _ (Paired.cons _ Paired.nil))))))

theorem lastBuzzerWrite_handleSerialLine (raw tag : String) :
    lastBuzzerWrite (handleSerialLine raw tag) = none := by
  unfold handleSerialLine
  by_cases h : 0 < (trim raw).length
  · rw [if_pos h]; rfl
  · rw [if_neg h]; rfl

theorem lastBuzzerWrite_pollUsb (o : Option String) :
    lastBuzzerWrite (pollUsb o) = none := by
  cases o with
  | none => rfl
  | some raw => exact lastBuzzerWrite_handleSerialLine raw "USB"

theorem lastBuzzerWrite_pollBt (o : Option String) :
    lastBuzzerWrite (pollBt o) = none := by
  cases o with
  | none => rfl
  | some raw => exact lastBuzzerWrite_handleSerialLine raw "BT"

theorem lastBuzzerWrite_buzzerBeepGo (d : Nat) (n : Nat) :
    lastBuzzerWrite (buzzerBeepGo d (n + 1)) = some false := by
  induction n with
  | zero => rfl
  | succ n ih =>
      rw [show buzzerBeepGo d (n + 1 + 1) =
          ([Effect.digitalWrite BUZZER_PIN true, Effect.delayMs d,
            Effect.digitalWrite BUZZER_PIN false] ++
           (if 0 < n + 1 then [Effect.delayMs d] else [])) ++ buzzerBeepGo d (n + 1)
          from rfl,
        lastBuzzerWrite_append, ih]
      rfl

theorem lastBuzzerWrite_handleLoRaPacket (p : String) :
    lastBuzzerWrite (handleLoRaPacket p) = some false := by
  unfold handleLoRaPacket
  rw [lastBuzzerWrite_append,
    show buzzerBeep 100 2 = buzzerBeepGo 100 (1 + 1) from rfl,
    lastBuzzerWrite_buzzerBeepGo]
  rfl

theorem lastBuzzerWrite_loop (inp : LoopInput) :
    lastBuzzerWrite (loop inp) = none ∨ lastBuzzerWrite (loop inp) = some false := by
  unfold loop
  rw [lastBuzzerWrite_append, lastBuzzerWrite_append,
    lastBuzzerWrite_pollUsb, lastBuzzerWrite_pollBt]
  cases h : inp.lora with
  | none => left; rfl
  | some p =>
      right
      rw [show pollLoRa (some p) = handleLoRaPacket p from rfl,
        lastBuzzerWrite_handleLoRaPacket]
      rfl

theorem lastBuzzerWrite_loopRun (inputs : List LoopInput) :
    lastBuzzerWrite (loopRun inputs) = none ∨
      lastBuzzerWrite (loopRun inputs) = some false := by
  induction inputs with
  | nil => left; rfl
  | cons i rest ih =>
      have hcons : loopRun (i :: rest) = loop i ++ loopRun rest := by simp [loopRun]
      rw [hcons, lastBuzzerWrite_append]
      rcases ih with h | h <;> rw [h]
      · rcases lastBuzzerWrite_loop i with h' | h' <;> rw [h']
        · left; rfl
        · right; rfl
      · right; rfl

theorem lastBuzzerWrite_haltIdle (inputs : List LoopInput) :
    lastBuzzerWrite (haltIdle inputs) = none := by
  induction inputs with
  | nil => rfl
  | cons i rest ih => rw [haltIdle_cons, lastBuzzerWrite, ih]; rfl

theorem lastBuzzerWrite_setupEffects (ok : Bool) :
    lastBuzzerWrite (setupEffects ok) = some false := by
  cases ok <;> decide

theorem countSerialLine_haltIdle (m : String) (inputs : List LoopInput) :
    countSerialLine m (haltIdle inputs) = 0 := by
  induction inputs with
  | nil => rfl
  | cons i rest ih =>
      rw [haltIdle_cons]
      simpa [countSerialLine, List.count_cons] using ih

theorem countBtLine_haltIdle (m : String) (inputs : List LoopInput) :
    countBtLine m (haltIdle inputs) = 0 := by
  induction inputs with
  | nil => rfl
  | cons i rest ih =>
      rw [haltIdle_cons]
      simpa [countBtLine, List.count_cons] using ih

theorem haltIdle_no_output (inputs : List LoopInput) :
    (haltIdle inputs).all (fun e => !(isOutput e)) = true := by
  induction inputs with
  | nil => rfl
  | cons i rest ih =>
      rw [haltIdle_cons]
      simpa [List.all_cons, isOutput] using ih

theorem handleSerialLine_pos (raw tag : String) (h : 0 < (trim raw).length) :
    handleSerialLine raw tag =
      [Effect.serialPrintln ("[TX " ++ tag ++ "] " ++ trim raw),
       Effect.btPrintln ("[TX " ++ tag ++ "] " ++ trim raw),
       Effect.loraSend (trim raw)] := by
  unfold handleSerialLine
  rw [if_pos h]
  rfl

theorem loop_only_usb (raw : String) :
    loop ⟨some raw, none, none⟩ = handleSerialLine raw "USB" := by
  simp [loop, pollUsb, pollBt, pollLoRa]

theorem loop_only_bt (raw : String) :
    loop ⟨none, some raw, none⟩ = handleSerialLine raw "BT" := by
  simp [loop, pollUsb, pollBt, pollLoRa]

/-- C1: a line read from USB serial or Bluetooth serial that is
non-empty after trimming is echoed as `[TX USB] `/`[TX BT] ` plus the
line to both serial outputs, and exactly the trimmed line is transmitted
over the radio. -/
theorem c1_nonempty_line_echo_and_tx (raw : String) (h : 0 < (trim raw).length) :
    loop ⟨some raw, none, none⟩ =
      [Effect.serialPrintln ("[TX USB] " ++ trim raw),
       Effect.btPrintln ("[TX USB] " ++ trim raw),
       Effect.loraSend (trim raw)] ∧
    loop ⟨none, some raw, none⟩ =
      [Effect.serialPrintln ("[TX BT] " ++ trim raw),
       Effect.btPrintln ("[TX BT] " ++ trim raw),
       Effect.loraSend (trim raw)] := by
  refine ⟨?_, ?_⟩
  · rw [loop_only_usb, handleSerialLine_pos raw "USB" h]; rfl
  · rw [loop_only_bt, handleSerialLine_pos raw "BT" h]; rfl

theorem c1_nonempty_line_echo_and_tx_witness :
    0 < (trim " hello ").length ∧
    (loop ⟨some " hello ", none, none⟩ =
      [Effect.serialPrintln ("[TX USB] " ++ trim " hello "),
       Effect.btPrintln ("[TX USB] " ++ trim " hello "),
       Effect.loraSend (trim " hello ")] ∧
     loop ⟨none, some " hello ", none⟩ =
      [Effect.serialPrintln ("[TX BT] " ++ trim " hello "),
       Effect.btPrintln ("[TX BT] " ++ trim " hello "),
       Effect.loraSend (trim " hello ")]) :=
  ⟨by decide, c1_nonempty_line_echo_and_tx " hello " (by decide)⟩

/-- C2: a packet payload received over the radio is printed as
`[RX] ` plus the payload to both serial outputs, followed by
`buzzerBeep(100, 2)`, which contains exactly two buzzer pulses. -/
theorem c2_rx_print_and_two_pulses (p : String) :
    loop ⟨none, none, some p⟩ =
      [Effect.serialPrintln ("[RX] " ++ p), Effect.btPrintln ("[RX] " ++ p)] ++
        buzzerBeep 100 2 ∧
    countPulses (loop ⟨none, none, some p⟩) = 2 :=
  ⟨rfl, rfl⟩

/-- C3: round-trip.  A non-empty trimmed USB line on the sending node
puts exactly the trimmed line on the radio as the only transmitted
payload, and a receiving node that drains that payload prints `[RX] `
plus exactly the original trimmed text to both outputs. -/
theorem c3_roundtrip_exact_text (raw : String) (h : 0 < (trim raw).length) :
    loraPayloads (loop ⟨some raw, none, none⟩) = [trim raw] ∧
    loop ⟨none, none, some (trim raw)⟩ =
      [Effect.serialPrintln ("[RX] " ++ trim raw),
       Effect.btPrintln ("[RX] " ++ trim raw)] ++ buzzerBeep 100 2 := by
  refine ⟨?_, rfl⟩
  rw [loop_only_usb, handleSerialLine_pos raw "USB" h]
  rfl

theorem c3_roundtrip_exact_text_witness :
    0 < (trim " ping 1 ").length ∧
    (loraPayloads (loop ⟨some " ping 1 ", none, none⟩) = [trim " ping 1 "] ∧
     loop ⟨none, none, some (trim " ping 1 ")⟩ =
      [Effect.serialPrintln ("[RX] " ++ trim " ping 1 "),
       Effect.btPrintln ("[RX] " ++ trim " ping 1 ")] ++ buzzerBeep 100 2) :=
  ⟨by decide, c3_roundtrip_exact_text " ping 1 " (by decide)⟩

/-- C4: when `LoRa.begin` fails, the run consists of the startup
effects ending in the single error line printed to both outputs,
followed only by the idle halt loop, which produces no print, no radio
transmission, and no buzzer pulse, whatever inputs arrive. -/
theorem c4_init_failure_one_error_then_silence (inputs : List LoopInput) :
    run false inputs =
      [Effect.serialBegin 115200, Effect.btBegin "Sting_Node_2",
       Effect.pinModeOut 25, Effect.digitalWrite 25 false,
       Effect.serialPrintln "LoRa Two-Way Chat", Effect.btPrintln "LoRa Two-Way Chat",
       Effect.serialPrintln "Initializing...", Effect.btPrintln "Initializing...",
       Effect.serialPrintln "Bluetooth device name: Sting_Node_2",
       Effect.btPrintln "Bluetooth device name: Sting_Node_2",
       Effect.loraSetPins 5 14 2, Effect.loraBegin 433000000,
       Effect.serialPrintln "ERROR: LoRa init failed!",
       Effect.btPrintln "ERROR: LoRa init failed!"] ++ haltIdle inputs ∧
    countSerialLine "ERROR: LoRa init failed!" (run false inputs) = 1 ∧
    countBtLine "ERROR: LoRa init failed!" (run false inputs) = 1 ∧
    (haltIdle inputs).all (fun e => !(isOutput e)) = true := by
  refine ⟨rfl, ?_, ?_, haltIdle_no_output inputs⟩
  · show countSerialLine _ (setupEffects false ++ haltIdle inputs) = 1
    have h1 : List.count (Effect.serialPrintln "ERROR: LoRa init failed!")
        (haltIdle inputs) = 0 := countSerialLine_haltIdle _ inputs
    rw [countSerialLine, List.count_append, h1]
    decide
  · show countBtLine _ (setupEffects false ++ haltIdle inputs) = 1
    have h1 : List.count (Effect.btPrintln "ERROR: LoRa init failed!")
        (haltIdle inputs) = 0 := countBtLine_haltIdle _ inputs
    rw [countBtLine, List.count_append, h1]
    decide

/-- C5: during startup exactly one buzzer pulse occurs on success, zero
on failure, and the single pulse comes after the
`LoRa initialized successfully!` line (which sits at index 12, while the
only rising edge sits at index 20, past the whole success banner). -/
theorem c5_startup_single_pulse :
    countPulses (setupEffects true) = 1 ∧
    countPulses (setupEffects false) = 0 ∧
    countPulses ((setupEffects true).take 20) = 0 ∧
    (setupEffects true).get? 12 =
      some (Effect.serialPrintln "LoRa initialized successfully!") ∧
    (setupEffects true).drop 20 =
      [Effect.digitalWrite BUZZER_PIN true, Effect.delayMs 100,
       Effect.digitalWrite BUZZER_PIN false] := by
  decide

theorem handleSerialLine_zero (raw tag : String) (h : (trim raw).length = 0) :
    handleSerialLine raw tag = [] := by
  unfold handleSerialLine
  rw [if_neg (by omega : ¬ 0 < (trim raw).length)]

theorem run_false_eq (inputs : List LoopInput) :
    run false inputs = setupEffects false ++ haltIdle inputs := rfl

theorem run_true_eq (inputs : List LoopInput) :
    run true inputs = setupEffects true ++ loopRun inputs := rfl

theorem getLast?_buzzerBeepGo (d n : Nat) :
    (buzzerBeepGo d (n + 1)).getLast? =
      some (Effect.digitalWrite BUZZER_PIN false) := by
  induction n with
  | zero => rfl
  | succ n ih =>
      have hne : buzzerBeepGo d (n + 1) ≠ [] := by
        intro hnil
        rw [hnil] at ih
        exact Option.noConfusion ih
      rw [show buzzerBeepGo d (n + 1 + 1) =
          ([Effect.digitalWrite BUZZER_PIN true, Effect.delayMs d,
            Effect.digitalWrite BUZZER_PIN false] ++
           (if 0 < n + 1 then [Effect.delayMs d] else [])) ++ buzzerBeepGo d (n + 1)
          from rfl,
        List.getLast?_append_of_ne_nil _ hne, ih]

/-- C6: a line that is empty or whitespace-only after trimming produces
no effect at all — no radio transmission and no echo — on whichever
serial channel it arrived. -/
theorem c6_blank_line_silently_dropped (raw : String) (h : (trim raw).length = 0) :
    loop ⟨some raw, none, none⟩ = [] ∧
    loop ⟨none, some raw, none⟩ = [] := by
  refine ⟨?_, ?_⟩
  · rw [loop_only_usb, handleSerialLine_zero raw "USB" h]
  · rw [loop_only_bt, handleSerialLine_zero raw "BT" h]

theorem c6_blank_line_silently_dropped_witness :
    (trim "   ").length = 0 ∧
    (loop ⟨some "   ", none, none⟩ = [] ∧
     loop ⟨none, some "   ", none⟩ = []) :=
  ⟨by decide, c6_blank_line_silently_dropped "   " (by decide)⟩

/-- C7: every line the program ever prints — tagged echoes, banner
lines, the init error line — appears in the trace as an adjacent pair:
once on USB serial and identically on Bluetooth serial. -/
theorem c7_every_line_printed_to_both (ok : Bool) (inputs : List LoopInput) :
    Paired (printsOf (run ok inputs)) := by
  cases ok
  · rw [run_false_eq, printsOf_append, printsOf_haltIdle, List.append_nil]
    exact paired_setupEffects false
  · rw [run_true_eq, printsOf_append]
    exact Paired.append (paired_setupEffects true) (paired_loopRun inputs)

/-- C8: each loop iteration polls USB serial, then Bluetooth serial,
then the LoRa buffer, in that fixed order, and iterations compose with
no state carried between them: a run over a concatenated schedule is the
concatenation of the runs. -/
theorem c8_poll_order_and_stateless (inp : LoopInput) (xs ys : List LoopInput) :
    loop inp = pollUsb inp.usb ++ pollBt inp.bt ++ pollLoRa inp.lora ∧
    loopRun (xs ++ ys) = loopRun xs ++ loopRun ys ∧
    run true (xs ++ ys) = setupEffects true ++ loopRun xs ++ loopRun ys := by
  refine ⟨rfl, loopRun_append xs ys, ?_⟩
  rw [run_true_eq, loopRun_append, List.append_assoc]

/-- C9: the buzzer pin is idle-low outside `buzzerBeep` calls: `setup`
drives it low immediately, any `buzzerBeep` with positive count ends by
driving it low, and after any complete run the last write on the pin is
low. -/
theorem c9_buzzer_idle_low (d : Nat) (c : Int) (h : 0 < c) (ok : Bool)
    (inputs : List LoopInput) :
    (buzzerBeep d c).getLast? = some (Effect.digitalWrite BUZZER_PIN false) ∧
    lastBuzzerWrite (setupEffects ok) = some false ∧
    lastBuzzerWrite (run ok inputs) = some false := by
  refine ⟨?_, lastBuzzerWrite_setupEffects ok, ?_⟩
  · have hc : c.toNat ≠ 0 := by omega
    obtain ⟨n, hn⟩ := Nat.exists_eq_succ_of_ne_zero hc
    rw [buzzerBeep, hn]
    exact getLast?_buzzerBeepGo d n
  · cases ok
    · rw [run_false_eq, lastBuzzerWrite_append, lastBuzzerWrite_setupEffects,
        lastBuzzerWrite_haltIdle]
      rfl
    · rw [run_true_eq, lastBuzzerWrite_append, lastBuzzerWrite_setupEffects]
      rcases lastBuzzerWrite_loopRun inputs with h' | h' <;> rw [h'] <;> rfl

theorem c9_buzzer_idle_low_witness :
    (0 : Int) < 1 ∧
    ((buzzerBeep 100 1).getLast? = some (Effect.digitalWrite BUZZER_PIN false) ∧
     lastBuzzerWrite (setupEffects true) = some false ∧
     lastBuzzerWrite (run true []) = some false) :=
  ⟨by decide, c9_buzzer_idle_low 100 1 (by decide) true []⟩

/-- C10: one loop iteration consumes at most one pending line from the
USB buffer and at most one from the Bluetooth buffer (exactly the head
when one is pending), leaves the rest waiting in order, and its effects
are those of `loop` on the head elements. -/
theorem c10_at_most_one_line_per_iteration (b : Buffers) :
    (loopStep b).1.usbLines = b.usbLines.tail ∧
    (loopStep b).1.btLines = b.btLines.tail ∧
    b.usbLines.length ≤ (loopStep b).1.usbLines.length + 1 ∧
    b.btLines.length ≤ (loopStep b).1.btLines.length + 1 ∧
    (loopStep b).2 = loop ⟨b.usbLines.head?, b.btLines.head?, b.loraPackets.head?⟩ := by
  obtain ⟨u, t, r⟩ := b
  cases u <;> cases t <;> cases r <;>
    simp [loopStep, stepUsb, stepBt, stepLoRa, loop, pollUsb, pollBt, pollLoRa]

end ResKiosk
